import Mathlib

/-!
Verification of the scan-orchestration and report-normalization service
(`app.py`).  The Python code is shallowly embedded: the `xmltodict`-style
nested report values become the inductive `PyVal`, Python exceptions become
`PyExc`, and the remote GMP service is an explicit state (`GvmState`)
threaded through the operations, with exceptions modelled by `Except`.
-/

/-- Python values as produced by `xmltodict.parse`: strings, dicts, lists,
and `None`. -/
inductive PyVal where
  | str (s : String) : PyVal
  | dict (kvs : List (String × PyVal)) : PyVal
  | list (xs : List PyVal) : PyVal
  | pyNone : PyVal

/-- The Python exceptions that can arise in `app.py`. -/
inductive PyExc where
  | keyError (k : String)
  | typeError (msg : String)
  | attributeError (msg : String)
  | valueError (msg : String)
  | gvmError (msg : String)
deriving Repr, DecidableEq

/-- Python subscript `v[k]` with a string key: dict lookup raising
`KeyError` on a missing key, `TypeError` on non-dicts. -/
def PyVal.getItem (v : PyVal) (k : String) : Except PyExc PyVal :=
  match v with
  | .dict kvs =>
    match List.lookup k kvs with
    | some x => .ok x
    | none => .error (.keyError k)
  | .str _ => .error (.typeError "string indices must be integers")
  | .list _ => .error (.typeError "list indices must be integers")
  | .pyNone => .error (.typeError "NoneType is not subscriptable")

/-- Python `v.get(k, d)`: only dicts have `.get`; other values raise
`AttributeError`. -/
def pyGetD (v : PyVal) (k : String) (d : PyVal) : Except PyExc PyVal :=
  match v with
  | .dict kvs =>
    match List.lookup k kvs with
    | some x => .ok x
    | none => .ok d
  | _ => .error (.attributeError "get")

/-- `pat` is a prefix of `l` (Python substring matching helper). -/
def charsStartWith : List Char → List Char → Bool
  | [], _ => true
  | _ :: _, [] => false
  | a :: as, b :: bs => a = b && charsStartWith as bs

/-- `pat` occurs as a contiguous sublist of `l`. -/
def charsContainSub (pat : List Char) : List Char → Bool
  | [] => pat.isEmpty
  | c :: rest => charsStartWith pat (c :: rest) || charsContainSub pat rest

/-- Python `k in v`: key membership for dicts, substring test for strings,
element equality for lists, `TypeError` for `None`. -/
def pyContains (v : PyVal) (k : String) : Except PyExc Bool :=
  match v with
  | .dict kvs => .ok (kvs.any (fun kv => kv.1 == k))
  | .str s => .ok (charsContainSub k.toList s.toList)
  | .list xs =>
    .ok (xs.any (fun x => match x with | .str t => t == k | _ => false))
  | .pyNone => .error (.typeError "argument of type NoneType is not iterable")

/-- Python truthiness of a value. -/
def PyVal.truthy : PyVal → Bool
  | .str s => s ≠ ""
  | .dict kvs => !kvs.isEmpty
  | .list xs => !xs.isEmpty
  | .pyNone => false

/-- Python `isinstance(v, list)`. -/
def PyVal.isList : PyVal → Bool
  | .list _ => true
  | _ => false

/-- Python iteration `for x in v`: lists give elements, dicts give their
keys (as strings), strings give their characters, `None` raises. -/
def pyIterE (v : PyVal) : Except PyExc (List PyVal) :=
  match v with
  | .list xs => .ok xs
  | .dict kvs => .ok (kvs.map (fun kv => PyVal.str kv.1))
  | .str s => .ok (s.toList.map (fun ch => PyVal.str (String.mk [ch])))
  | .pyNone => .error (.typeError "NoneType is not iterable")

/-- Python `v == lit` for a string literal `lit`. -/
def PyVal.eqStr (v : PyVal) (lit : String) : Bool :=
  match v with
  | .str t => t == lit
  | _ => false

/-- Python `str.split(sep)` for a one-character separator, on the
character list: splits at every occurrence, keeping empty groups. -/
def splitOnChar (sep : Char) : List Char → List (List Char)
  | [] => [[]]
  | ch :: rest =>
    if ch = sep then [] :: splitOnChar sep rest
    else
      match splitOnChar sep rest with
      | [] => [[ch]]
      | grp :: grps => (ch :: grp) :: grps

/-- Python `s.split(sep)` for a one-character separator. -/
def pySplit (s : String) (sep : Char) : List String :=
  (splitOnChar sep s.toList).map (fun cs => String.mk cs)

/-- Line 226: `severity_value.split('/')[1:] if severity_value else []`. -/
def vector_parts (severity_value : String) : List String :=
  if severity_value = "" then [] else (pySplit severity_value '/').tail

/-- Line 227: `(vector_parts + ['N/A'] * 8)[:8]` — the eight raw metric
tokens (AV, AC, PR, UI, S, C, I, A), padded with `"N/A"`. -/
def rawMetrics (severity_value : String) : List String :=
  (vector_parts severity_value ++ List.replicate 8 "N/A").take 8

/-- Lines 229-236: `tok.split(':')[1] if ':' in tok else tok`.  The
`getD _ 1 tok` branch with the token itself as default is unreachable:
a string containing the separator always splits into at least two
groups. -/
def metricValue (tok : String) : String :=
  if tok.toList.contains ':' then (pySplit tok ':').getD 1 tok else tok

/-- Modelled from the spec's words for comparison with `metricValue`
(§4.4 step e: keep only the substring after the FIRST colon): everything
strictly after the first occurrence of the colon. -/
def afterFirstColonSpec (tok : String) : String :=
  String.mk ((tok.toList.dropWhile (fun c => c ≠ ':')).tail)

/-- All eight flattened CVSS metric values of a severity-vector string. -/
def summaryMetrics (severity_value : String) : List String :=
  (rawMetrics severity_value).map metricValue

/-- Modelled from the amended reading of §4.4 step e: the token segment
strictly between the first and the second colon (all of the remainder
when there is no second colon). -/
def betweenColonsSpec (tok : String) : String :=
  String.mk (((tok.toList.dropWhile (fun c => c ≠ ':')).tail).takeWhile (fun c => c ≠ ':'))

/-- Lines 219-222: scan the reference list for the first entry whose
`@type` is `"cve"` and return its `@id` (default `"N/A"`); `"N/A"` when
no entry matches. -/
def cveLoop : List PyVal → Except PyExc PyVal
  | [] => .ok (.str "N/A")
  | r :: rest =>
    match pyGetD r "@type" PyVal.pyNone with
    | .error e => .error e
    | .ok t =>
      if t.eqStr "cve" then pyGetD r "@id" (.str "N/A") else cveLoop rest

/-- Line 217-218: `refs = [refs] if not isinstance(refs, list)`. -/
def normalizeRefs (refs : PyVal) : List PyVal :=
  match refs with
  | .list xs => xs
  | v => [v]

/-- Lines 215-222: CVE extraction from a finding's `nvt` value. -/
def extract_cve (nvt : PyVal) : Except PyExc PyVal :=
  match pyGetD nvt "refs" (.dict []) with
  | .error e => .error e
  | .ok a =>
    match pyGetD a "ref" (.list []) with
    | .error e => .error e
    | .ok refs => cveLoop (normalizeRefs refs)

/-- Line 225: the guarded chained lookup
`nvt['severities']['severity']['value']` with `''` as fallback, with the
same short-circuit evaluation order as the Python conditional. -/
def severityValueOf (nvt : PyVal) : Except PyExc PyVal := do
  let b1 ← pyContains nvt "severities"
  if b1 then
    let sevs ← nvt.getItem "severities"
    let b2 ← pyContains sevs "severity"
    if b2 then
      let sev ← sevs.getItem "severity"
      let b3 ← pyContains sev "value"
      if b3 then sev.getItem "value" else pure (.str "")
    else pure (.str "")
  else pure (.str "")

/-- Line 226 applied to the (possibly non-string) severity value: falsy
values give `[]`, truthy non-strings have no `.split`. -/
def pyVectorParts (sv : PyVal) : Except PyExc (List String) :=
  match sv with
  | .str t => .ok (vector_parts t)
  | v => if v.truthy then .error (.attributeError "split") else .ok []

/-- One row of `detailed_results` (lines 238-244). -/
structure DetailRecord where
  id : PyVal
  name : PyVal
  score : PyVal
  creation_time : PyVal
  modification_time : PyVal

/-- One row of `summary_results` (lines 246-258); `metrics` holds the
eight flattened CVSS fields in order AV, AC, PR, UI, S, C, I, A. -/
structure SummaryRecord where
  endpoint : PyVal
  cve : PyVal
  score : PyVal
  metrics : List String

/-- The dictionary returned by `process_report` on success (line 260). -/
structure ProcessedReport where
  scan_name : PyVal
  targets : List PyVal
  result_details : List DetailRecord
  result_summary : List SummaryRecord

/-- Lines 212-258: the loop body of `process_report` for one finding, in
the source's evaluation order. -/
def processFinding (result : PyVal) : Except PyExc (DetailRecord × SummaryRecord) := do
  let host ← result.getItem "host"
  let endpoint ← host.getItem "#text"
  let nvt ← result.getItem "nvt"
  let cve ← extract_cve nvt
  let score ← pyGetD nvt "cvss_base" (.str "N/A")
  let sv ← severityValueOf nvt
  let vparts ← pyVectorParts sv
  let metrics := ((vparts ++ List.replicate 8 "N/A").take 8).map metricValue
  let rid ← result.getItem "@id"
  let rname ← result.getItem "name"
  let score2 ← nvt.getItem "cvss_base"
  let ctime ← result.getItem "creation_time"
  let mtime ← result.getItem "modification_time"
  pure (⟨rid, rname, score2, ctime, mtime⟩, ⟨endpoint, cve, score, metrics⟩)

/-- The `for result in results` loop, accumulating both tables in order;
any exception from a finding aborts the whole loop. -/
def processLoop : List PyVal → Except PyExc (List DetailRecord × List SummaryRecord)
  | [] => .ok ([], [])
  | r :: rest => do
    let pair ← processFinding r
    let rests ← processLoop rest
    pure (pair.1 :: rests.1, pair.2 :: rests.2)

/-- Line 206: the nested findings-path lookup
`data["get_reports_response"]["report"]["report"]["results"]["result"]`. -/
def findingsPath (data : PyVal) : Except PyExc PyVal := do
  let a ← data.getItem "get_reports_response"
  let b ← a.getItem "report"
  let c ← b.getItem "report"
  let d ← c.getItem "results"
  d.getItem "result"

/-- Lines 190-260: `process_report`.  The first component is the returned
value (`.ok none` models Python's `return None`; `.error e` an uncaught
exception), the second the `logging.error` lines emitted. -/
def process_report (data scan_name : PyVal) (targets : List PyVal) :
    Except PyExc (Option ProcessedReport) × List String :=
  match findingsPath data with
  | .error (.keyError k) => (.ok none, ["Key error: " ++ k])
  | .error e => (.error e, [])
  | .ok results =>
    match pyIterE results with
    | .error e => (.error e, [])
    | .ok rs =>
      match processLoop rs with
      | .error e => (.error e, [])
      | .ok pair => (.ok (some ⟨scan_name, targets, pair.1, pair.2⟩), [])

/-- A target on the remote service (capability model of §6:
`createTarget`/`deleteTarget`/`listTargets`). -/
structure GTarget where
  id : String
  name : String
  hosts : String
  port_list_id : String
deriving Repr, DecidableEq

/-- A task on the remote service. -/
structure GTask where
  id : String
  name : String
  config_id : String
  target_id : String
  scanner_id : String
deriving Repr, DecidableEq

/-- A read-only named reference entity (scan config or scanner). -/
structure NamedEntity where
  id : String
  name : String
deriving Repr, DecidableEq

/-- The remote scan-management service plus the session, modelled from the
capability set of the spec (the service itself is outside `app.py`):
entity stores, stored parsed reports, a call counter with an optional
injected remote fault (the `k`-th remote call raises `GvmError` with the
given message), a fresh-id counter, and the session flags. -/
structure GvmState where
  targets : List GTarget
  tasks : List GTask
  configs : List NamedEntity
  scanners : List NamedEntity
  started : List (String × String)
  reports : List (String × PyVal)
  calls : Nat
  gvmFault : Option (Nat × String)
  nextId : Nat
  connected : Bool
  authenticated : Bool

/-- A stateful computation over the remote service that can raise a
Python exception, leaving the state as it was at the raise point. -/
def GvmM (α : Type) : Type := GvmState → Except PyExc α × GvmState

/-- Return a value, leaving the state unchanged. -/
def mret {α : Type} (a : α) : GvmM α := fun s => (.ok a, s)

/-- Sequence two computations; an exception in the first skips the
second. -/
def mbind {α β : Type} (m : GvmM α) (f : α → GvmM β) : GvmM β := fun s =>
  match m s with
  | (.ok a, s1) => f a s1
  | (.error e, s1) => (.error e, s1)

/-- Raise a Python exception. -/
def mthrow {α : Type} (e : PyExc) : GvmM α := fun s => (.error e, s)

/-- Lift a pure exception-or-value into the stateful model. -/
def liftE {α : Type} (r : Except PyExc α) : GvmM α := fun s => (r, s)

/-- Python `except GvmError as e:` — run `m`; a `GvmError` is handed to
`h`, every other exception propagates. -/
def catchGvm {α : Type} (m : GvmM α) (h : String → GvmM α) : GvmM α := fun s =>
  match m s with
  | (.error (.gvmError msg), s1) => h msg s1
  | r => r

/-- One remote call: bumps the call counter and raises the injected
`GvmError` when this is the faulted call, otherwise performs `op`. -/
def remoteCall {α : Type} (op : GvmState → Except PyExc α × GvmState) : GvmM α := fun s =>
  match s.gvmFault with
  | some f =>
    if s.calls = f.1 then
      (.error (.gvmError f.2), {s with calls := s.calls + 1})
    else op {s with calls := s.calls + 1}
  | none => op {s with calls := s.calls + 1}

/-- Entering `with Gmp(connection, ...) as gmp` opens the session. -/
def connect : GvmM Unit := fun s => (.ok (), {s with connected := true})

/-- `connection.disconnect()` in the `finally` blocks. -/
def disconnectState (s : GvmState) : GvmState := {s with connected := false}

/-- `gmp.authenticate(username='admin', password='admin')`. -/
def authenticate : GvmM Unit :=
  remoteCall fun s => (.ok (), {s with authenticated := true})

/-- `gmp.get_targets()`. -/
def get_targets : GvmM (List GTarget) :=
  remoteCall fun s => (.ok s.targets, s)

/-- `gmp.delete_target(target_id=tid)`. -/
def delete_target (tid : String) : GvmM Unit :=
  remoteCall fun s =>
    (.ok (), {s with targets := s.targets.filter (fun t => t.id != tid)})

/-- The opaque identifier minted by the modelled remote service for its
`n`-th created entity (any injective scheme works; a unary one keeps the
model reducible). -/
def freshId (n : Nat) : String := "id-" ++ String.mk (List.replicate n 'i')

/-- `gmp.create_target(...)`: registers a fresh target and returns its id
(the id extraction from the XML response on line 138 is modelled as the
id itself). -/
def create_target (name hosts port_list_id : String) : GvmM String :=
  remoteCall fun s =>
    let tid := freshId s.nextId
    (.ok tid, {s with targets := s.targets ++ [⟨tid, name, hosts, port_list_id⟩],
                      nextId := s.nextId + 1})

/-- `gmp.get_configs()`. -/
def get_configs : GvmM (List NamedEntity) :=
  remoteCall fun s => (.ok s.configs, s)

/-- `gmp.get_scanners()`. -/
def get_scanners : GvmM (List NamedEntity) :=
  remoteCall fun s => (.ok s.scanners, s)

/-- `gmp.create_task(...)`: registers a fresh task and returns its id. -/
def create_task (name config_id target_id scanner_id : String) : GvmM String :=
  remoteCall fun s =>
    let tid := freshId s.nextId
    (.ok tid, {s with tasks := s.tasks ++ [⟨tid, name, config_id, target_id, scanner_id⟩],
                      nextId := s.nextId + 1})

/-- `gmp.start_task(task_id)`: records the start and returns the fresh
report id. -/
def start_task (task_id : String) : GvmM String :=
  remoteCall fun s =>
    let rid := freshId s.nextId
    (.ok rid, {s with started := s.started ++ [(task_id, rid)],
                      nextId := s.nextId + 1})

/-- `gmp.get_report(report_id=..., ...)` followed by the
`etree`/`xmltodict` conversion of lines 175-176, modelled as the stored
parsed report; an unknown id is a remote-side `GvmError`. -/
def get_report (report_id : String) : GvmM PyVal :=
  remoteCall fun s =>
    match List.lookup report_id s.reports with
    | some v => (.ok v, s)
    | none => (.error (.gvmError ("Failed to find report " ++ report_id)), s)

/-- The result dictionary of `trigger_scan` (lines 149 and 151). -/
inductive TriggerResult where
  | okMsg (message scan_name targets scan_id : String)
  | errMsg (error : String)
deriving Repr, DecidableEq

/-- The result dictionary of `retrieve_results`: the value returned by
`process_report` (line 183), or the `{error}` dictionary (line 185). -/
inductive RetrieveResult where
  | found (r : Option ProcessedReport)
  | errMsg (error : String)

/-- Lines 49-74: `delete_target_if_exists` — delete the first target with
an exact name match and return `True`; `False` when none matches; a
`GvmError` is logged and turned into `False`. -/
def delete_target_if_exists (target_name : String) : GvmM Bool :=
  catchGvm
    (mbind get_targets (fun targets =>
      match targets.find? (fun t => t.name == target_name) with
      | some t => mbind (delete_target t.id) (fun _ => mret true)
      | none => mret false))
    (fun _msg => mret false)

/-- Lines 77-94: `get_default_config_id` — the id of the first config
whose name is exactly `"Full and fast"`; `ValueError` when absent. -/
def get_default_config_id : GvmM String :=
  mbind get_configs (fun configs =>
    match configs.find? (fun c => c.name == "Full and fast") with
    | some c => mret c.id
    | none => mthrow (.valueError "Default config \x22Full and fast\x22 not found"))

/-- Lines 97-114: `get_default_scanner_id` — the id of the first scanner
whose name is exactly `"OpenVAS Default"`; `ValueError` when absent. -/
def get_default_scanner_id : GvmM String :=
  mbind get_scanners (fun scanners =>
    match scanners.find? (fun c => c.name == "OpenVAS Default") with
    | some c => mret c.id
    | none => mthrow (.valueError "Default scanner \x22OpenVAS Default\x22 not found"))

/-- Lines 132-149: the `try` body of `trigger_scan`. -/
def trigger_scan_body (scan_name targets port_list_id : String) : GvmM TriggerResult :=
  mbind connect (fun _ =>
  mbind authenticate (fun _ =>
  mbind (delete_target_if_exists scan_name) (fun _ =>
  mbind (create_target scan_name targets port_list_id) (fun target_id =>
  mbind get_default_config_id (fun config_id =>
  mbind get_default_scanner_id (fun scanner_id =>
  mbind (create_task scan_name config_id target_id scanner_id) (fun task_id =>
  mbind (start_task task_id) (fun scan_id =>
  mret (.okMsg "Scan started" scan_name targets scan_id)))))))))

/-- Lines 117-153: `trigger_scan` — the body with `except GvmError`
converting to `{error}` and `finally: connection.disconnect()`. -/
def trigger_scan (scan_name targets port_list_id : String) : GvmM TriggerResult := fun s =>
  let r := catchGvm (trigger_scan_body scan_name targets port_list_id)
      (fun msg => mret (.errMsg msg)) s
  (r.1, disconnectState r.2)

/-- Line 178: the defensive chained `.get` lookup of the task name. -/
def scanNameOf (report_dict : PyVal) : Except PyExc PyVal := do
  let a ← pyGetD report_dict "get_reports_response" (.dict [])
  let b ← pyGetD a "report" (.dict [])
  let c ← pyGetD b "task" (.dict [])
  pyGetD c "name" (.str "N/A")

/-- Line 179, inner chain: the `.get`-guarded findings collection. -/
def resultsCollection (report_dict : PyVal) : Except PyExc PyVal := do
  let a ← pyGetD report_dict "get_reports_response" (.dict [])
  let b ← pyGetD a "report" (.dict [])
  let c ← pyGetD b "report" (.dict [])
  let d ← pyGetD c "results" (.dict [])
  pyGetD d "result" (.list [])

/-- Python `hash`ability for `set()` elements: strings and `None` hash,
dicts and lists raise `TypeError`. -/
def hashKey : PyVal → Except PyExc (Option String)
  | .str s => .ok (some s)
  | .pyNone => .ok none
  | .dict _ => .error (.typeError "unhashable type: dict")
  | .list _ => .error (.typeError "unhashable type: list")

/-- `list(set(xs))`, deduplicating hashable values; the real set's
iteration order is unspecified, modelled here as first-occurrence order. -/
def setDedup : List PyVal → List (Option String) → Except PyExc (List PyVal)
  | [], _ => .ok []
  | x :: rest, seen => do
    let k ← hashKey x
    if seen.contains k then setDedup rest seen
    else do
      let ys ← setDedup rest (k :: seen)
      pure (x :: ys)

/-- Line 179: `list(set(result['host']['#text'] for result in ...))`. -/
def targetsOf (report_dict : PyVal) : Except PyExc (List PyVal) := do
  let coll ← resultsCollection report_dict
  let rs ← pyIterE coll
  let hosts ← rs.mapM (fun r => do
    let h ← r.getItem "host"
    h.getItem "#text")
  setDedup hosts []

/-- Lines 169-183: the `try` body of `retrieve_results`. -/
def retrieve_results_body (scan_id : String) : GvmM RetrieveResult :=
  mbind connect (fun _ =>
  mbind authenticate (fun _ =>
  mbind (get_report scan_id) (fun report_dict =>
  mbind (liftE (scanNameOf report_dict)) (fun scan_name =>
  mbind (liftE (targetsOf report_dict)) (fun targets =>
  match process_report report_dict scan_name targets with
  | (.ok r, _logs) => mret (.found r)
  | (.error e, _logs) => mthrow e)))))

/-- Lines 156-187: `retrieve_results` — the body with `except GvmError`
converting to `{error}` and `finally: connection.disconnect()`. -/
def retrieve_results (scan_id : String) : GvmM RetrieveResult := fun s =>
  let r := catchGvm (retrieve_results_body scan_id)
      (fun msg => mret (.errMsg msg)) s
  (r.1, disconnectState r.2)

/-- Lines 39-46: the `GET /get_results/<scan_id>` route — `jsonify` of
whatever `retrieve_results` returns, with Flask's default status 200. -/
def get_results_route (scan_id : String) : GvmM (Nat × RetrieveResult) := fun s =>
  match retrieve_results scan_id s with
  | (.ok r, s1) => (.ok (200, r), s1)
  | (.error e, s1) => (.error e, s1)

/-- Line 26: the hard-coded default port list id. -/
def defaultPortListId : String := "33d0cd82-57c6-11e1-8ed1-406186ea4fc5"

/-- A clean remote service: the two fixed reference entities exist, no
targets, tasks or reports, no injected fault. -/
def baseState : GvmState where
  targets := []
  tasks := []
  configs := [⟨"cfg-1", "Full and fast"⟩]
  scanners := [⟨"scn-1", "OpenVAS Default"⟩]
  started := []
  reports := []
  calls := 0
  gvmFault := none
  nextId := 0
  connected := false
  authenticated := false

/-- The remote-service state after two sequential `trigger_scan` calls
with the same name and hosts. -/
def runTwice (n h p : String) (s : GvmState) : GvmState :=
  (trigger_scan n h p (trigger_scan n h p s).2).2

/-- A `cve`-typed reference entry. -/
def cveRef : PyVal := .dict [("@type", .str "cve"), ("@id", .str "CVE-2023-0001")]

/-- A non-`cve` reference entry. -/
def bidRef : PyVal := .dict [("@type", .str "bid"), ("@id", .str "123")]

/-- One well-formed finding as `xmltodict` would produce it. -/
def finding1 : PyVal := .dict [
  ("@id", .str "res-1"),
  ("host", .dict [("#text", .str "10.0.0.1")]),
  ("name", .str "Example vulnerability"),
  ("creation_time", .str "2024-01-01T00:00:00Z"),
  ("modification_time", .str "2024-01-02T00:00:00Z"),
  ("nvt", .dict [
    ("cvss_base", .str "9.8"),
    ("refs", .dict [("ref", .list [cveRef, bidRef])]),
    ("severities", .dict [("severity", .dict [
      ("value", .str "CVSS:3.1/AV:N/AC:L/PR:N/UI:N/S:U/C:H/I:H/A:H")])])])]

/-- A parsed report with one finding. -/
def goodReport : PyVal := .dict [("get_reports_response", .dict [
  ("report", .dict [
    ("task", .dict [("name", .str "test1")]),
    ("report", .dict [("results", .dict [("result", .list [finding1])])])])])]

/-- A parsed report whose findings path stops existing at the inner
`report` key. -/
def noFindingsReport : PyVal := .dict [("get_reports_response", .dict [
  ("report", .dict [("task", .dict [("name", .str "empty")])])])]

/-- A parsed report whose findings path holds a single finding mapping
instead of a list (what `xmltodict` produces for exactly one result). -/
def singleFindingReport : PyVal := .dict [("get_reports_response", .dict [
  ("report", .dict [
    ("task", .dict [("name", .str "single")]),
    ("report", .dict [("results", .dict [("result", finding1)])])])])]

/-- The clean service with three stored reports. -/
def okState : GvmState :=
  {baseState with reports := [("rep-1", goodReport), ("rep-2", noFindingsReport),
                              ("rep-3", singleFindingReport)]}

/-- A service on which the expected config name does not resolve: only a
case-differing and a partial match exist. -/
def caseState : GvmState :=
  {baseState with configs := [⟨"cfg-a", "full and fast"⟩,
                              ⟨"cfg-b", "Full and fast extended"⟩]}

/-- A service whose first remote call (the authentication) raises a
`GvmError`. -/
def faultState : GvmState := {baseState with gvmFault := some (0, "boom")}

/-- The state left behind by the faulted `trigger_scan` body. -/
def faultStateAfter : GvmState :=
  (trigger_scan_body "test1" "10.0.0.1" defaultPortListId faultState).2

/-- A service without the expected default config. -/
def noConfigState : GvmState := {baseState with configs := []}

/-- The service state after one `trigger_scan n h p` call on the clean
service: one target, one task, one started task, seven remote calls. -/
def state1 (n h p : String) : GvmState where
  targets := [⟨"id-", n, h, p⟩]
  tasks := [⟨"id-i", n, "cfg-1", "id-", "scn-1"⟩]
  configs := [⟨"cfg-1", "Full and fast"⟩]
  scanners := [⟨"scn-1", "OpenVAS Default"⟩]
  started := [("id-i", "id-ii")]
  reports := []
  calls := 7
  gvmFault := none
  nextId := 3
  connected := false
  authenticated := true

/-- The service state after a second `trigger_scan n h p` call: the old
target is gone, a fresh one exists, but both tasks remain. -/
def state2 (n h p : String) : GvmState where
  targets := [⟨"id-iii", n, h, p⟩]
  tasks := [⟨"id-i", n, "cfg-1", "id-", "scn-1"⟩,
            ⟨"id-iiii", n, "cfg-1", "id-iii", "scn-1"⟩]
  configs := [⟨"cfg-1", "Full and fast"⟩]
  scanners := [⟨"scn-1", "OpenVAS Default"⟩]
  started := [("id-i", "id-ii"), ("id-iiii", "id-iiiii")]
  reports := []
  calls := 15
  gvmFault := none
  nextId := 6
  connected := false
  authenticated := true

lemma catchGvm_no_gvm {α : Type} (m : GvmM α) (f : String → α) (s : GvmState) (msg : String) :
    (catchGvm m (fun m2 => mret (f m2)) s).1 ≠ .error (.gvmError msg) := by
  unfold catchGvm mret
  rcases hm : m s with ⟨r, s1⟩
  rcases r with e | a
  · cases e <;> simp
  · simp

lemma catchGvm_converts {α : Type} (m : GvmM α) (f : String → α) (s s1 : GvmState) (msg : String)
    (h : m s = (.error (.gvmError msg), s1)) :
    (catchGvm m (fun m2 => mret (f m2)) s).1 = .ok (f msg) := by
  unfold catchGvm mret
  rw [h]

/-- C10: both `trigger_scan` and `retrieve_results` disconnect the remote
session on every exit path — normal return, handled error, or uncaught
exception — so neither operation ever terminates with the session still
connected. -/
theorem C10_disconnect_every_path (s : GvmState) (n h p sid : String) :
    ((trigger_scan n h p s).2).connected = false ∧
    ((retrieve_results sid s).2).connected = false :=
  ⟨rfl, rfl⟩

/-- C9: whenever `retrieve_results` returns a result dictionary — a
normalized report, a remote failure converted to `{error}`, or the `None`
of a structural parse failure — the `GET /get_results/<scan_id>` route
responds with HTTP status 200 and that dictionary as the body; the three
outcome classes are each exhibited on a concrete service state. -/
theorem C9_get_results_always_200 :
    (∀ (s : GvmState) (sid : String) (r : RetrieveResult) (s1 : GvmState),
      retrieve_results sid s = (.ok r, s1) →
      (get_results_route sid s).1 = .ok (200, r)) ∧
    (∃ pr, (get_results_route "rep-1" okState).1 = .ok (200, .found (some pr))) ∧
    (get_results_route "rep-404" okState).1 =
      .ok (200, .errMsg "Failed to find report rep-404") ∧
    (get_results_route "rep-2" okState).1 = .ok (200, .found none) := by
  refine ⟨?_, ⟨_, rfl⟩, rfl, rfl⟩
  intro s sid r s1 h
  simp only [get_results_route, h]

/-- C9 witness: the universal part applied to the concrete state whose
report store lacks the requested id. -/
theorem C9_witness :
    (get_results_route "rep-404" okState).1 =
      .ok (200, .errMsg "Failed to find report rep-404") :=
  C9_get_results_always_200.1 okState "rep-404"
    (.errMsg "Failed to find report rep-404")
    ((retrieve_results "rep-404" okState).2) rfl

/-- C6: whenever the nested findings-path lookup of `process_report`
fails with a `KeyError` (a key missing at some nesting level), the
function returns `None` and logs the error; no exception escapes in that
case. -/
theorem C6_missing_findings_returns_none (data scan_name : PyVal)
    (targets : List PyVal) (k : String)
    (h : findingsPath data = .error (.keyError k)) :
    (process_report data scan_name targets).1 = .ok none ∧
    (process_report data scan_name targets).2 = ["Key error: " ++ k] := by
  constructor <;> simp only [process_report, h]

/-- C6 witness: an entirely empty report dict is missing the first key of
the path. -/
theorem C6_witness :
    (process_report (.dict []) (.str "x") []).1 = .ok none ∧
    (process_report (.dict []) (.str "x") []).2 = ["Key error: get_reports_response"] :=
  C6_missing_findings_returns_none (.dict []) (.str "x") [] "get_reports_response" rfl

/-- C7: when the findings path holds a single finding mapping (a
non-empty dict) instead of a list, `process_report` iterates the dict's
string keys, the first per-finding subscript raises an uncaught
`TypeError`, and no result dictionary (hence no detail or summary
record) is produced. -/
theorem C7_single_finding_dict_uncaught (data scan_name : PyVal)
    (targets : List PyVal) (kv : String × PyVal) (kvs : List (String × PyVal))
    (h : findingsPath data = .ok (.dict (kv :: kvs))) :
    (process_report data scan_name targets).1 =
      .error (.typeError "string indices must be integers") ∧
    ∀ r, (process_report data scan_name targets).1 ≠ .ok r := by
  have h1 : (process_report data scan_name targets).1 =
      .error (.typeError "string indices must be integers") := by
    simp only [process_report, h]
    rfl
  refine ⟨h1, fun r hr => ?_⟩
  rw [h1] at hr
  cases hr

/-- C7 witness: the stored report whose findings path holds the finding
mapping itself rather than a one-element list. -/
theorem C7_witness :
    (process_report singleFindingReport (.str "single") []).1 =
      .error (.typeError "string indices must be integers") ∧
    ∀ r, (process_report singleFindingReport (.str "single") []).1 ≠ .ok r :=
  C7_single_finding_dict_uncaught singleFindingReport (.str "single") [] _ _ rfl

/-- C2 (amended): remote-protocol failures (`GvmError`) inside
`trigger_scan` and `retrieve_results` are caught at the operation
boundary and converted to `{error: message}` — a `GvmError` never
escapes — but that is the only exception class caught: the `ValueError`
raised by config/scanner name resolution, and non-`GvmError` errors from
report processing, escape uncaught (see the counterexample). -/
theorem C2_gvm_caught_only (s : GvmState) :
    (∀ (n h p msg : String), (trigger_scan n h p s).1 ≠ .error (.gvmError msg)) ∧
    (∀ (sid msg : String), (retrieve_results sid s).1 ≠ .error (.gvmError msg)) ∧
    (∀ (s1 : GvmState) (n h p msg : String),
      trigger_scan_body n h p s = (.error (.gvmError msg), s1) →
      (trigger_scan n h p s).1 = .ok (.errMsg msg)) ∧
    (∀ (s1 : GvmState) (sid msg : String),
      retrieve_results_body sid s = (.error (.gvmError msg), s1) →
      (retrieve_results sid s).1 = .ok (.errMsg msg)) := by
  refine ⟨fun n h p msg => ?_, fun sid msg => ?_, fun s1 n h p msg hb => ?_, fun s1 sid msg hb => ?_⟩
  · exact catchGvm_no_gvm (trigger_scan_body n h p) TriggerResult.errMsg s msg
  · exact catchGvm_no_gvm (retrieve_results_body sid) RetrieveResult.errMsg s msg
  · exact catchGvm_converts (trigger_scan_body n h p) TriggerResult.errMsg s s1 msg hb
  · exact catchGvm_converts (retrieve_results_body sid) RetrieveResult.errMsg s s1 msg hb

/-- C2 witness: on a service whose first remote call raises a `GvmError`,
`trigger_scan` returns the structured `{error}` dictionary. -/
theorem C2_witness :
    (trigger_scan "test1" "10.0.0.1" defaultPortListId faultState).1 =
      .ok (.errMsg "boom") :=
  (C2_gvm_caught_only faultState).2.2.1 faultStateAfter
    "test1" "10.0.0.1" defaultPortListId "boom" rfl

/-- C2 counterexample: with no config named `"Full and fast"` on the
service, the `ValueError` raised by `get_default_config_id` escapes
`trigger_scan` uncaught, contradicting "no failure escapes as an
uncaught exception to the HTTP layer". -/
theorem C2_counterexample_uncaught_valueerror :
    (trigger_scan "test1" "10.0.0.1" defaultPortListId noConfigState).1 =
      .error (.valueError "Default config \x22Full and fast\x22 not found") := rfl

lemma find?_first {α : Type} (p : α → Bool) (pre post : List α) (c : α)
    (hpre : ∀ x ∈ pre, p x = false) (hc : p c = true) :
    List.find? p (pre ++ c :: post) = some c := by
  induction pre with
  | nil => simp [List.find?_cons, hc]
  | cons a as ih =>
    have ha := hpre a (by simp)
    simp only [List.cons_append, List.find?_cons, ha, cond_false]
    exact ih (fun x hx => hpre x (by simp [hx]))

/-- C8: config and scanner resolution return the id of the first entity
whose name matches the fixed expected name exactly (case-sensitively);
when every listed entity has a different name — including case-differing
or partial matches, as on `caseState` — resolution raises the
`ValueError`, which aborts the orchestration before any task is created
or started, with no retry and no fallback name. -/
theorem C8_name_resolution_exact :
    (∀ (s : GvmState) (pre post : List NamedEntity) (c : NamedEntity),
      s.gvmFault = none →
      s.configs = pre ++ c :: post →
      (∀ x ∈ pre, x.name ≠ "Full and fast") →
      c.name = "Full and fast" →
      (get_default_config_id s).1 = .ok c.id) ∧
    (∀ s : GvmState, s.gvmFault = none →
      (∀ x ∈ s.configs, x.name ≠ "Full and fast") →
      (get_default_config_id s).1 =
        .error (.valueError "Default config \x22Full and fast\x22 not found")) ∧
    (∀ (s : GvmState) (pre post : List NamedEntity) (c : NamedEntity),
      s.gvmFault = none →
      s.scanners = pre ++ c :: post →
      (∀ x ∈ pre, x.name ≠ "OpenVAS Default") →
      c.name = "OpenVAS Default" →
      (get_default_scanner_id s).1 = .ok c.id) ∧
    (∀ s : GvmState, s.gvmFault = none →
      (∀ x ∈ s.scanners, x.name ≠ "OpenVAS Default") →
      (get_default_scanner_id s).1 =
        .error (.valueError "Default scanner \x22OpenVAS Default\x22 not found")) ∧
    (get_default_config_id caseState).1 =
      .error (.valueError "Default config \x22Full and fast\x22 not found") ∧
    (trigger_scan "test1" "10.0.0.1" defaultPortListId caseState).1 =
      .error (.valueError "Default config \x22Full and fast\x22 not found") ∧
    (trigger_scan "test1" "10.0.0.1" defaultPortListId caseState).2.tasks = [] ∧
    (trigger_scan "test1" "10.0.0.1" defaultPortListId caseState).2.started = [] := by
  refine ⟨?_, ?_, ?_, ?_, rfl, rfl, rfl, rfl⟩
  · intro s pre post c hf hcfg hpre hc
    simp only [get_default_config_id, mbind, get_configs, remoteCall, hf]
    rw [hcfg]
    rw [find?_first (fun x => x.name == "Full and fast") pre post c
      (fun x hx => by simpa using hpre x hx) (by simpa using hc)]
    rfl
  · intro s hf hall
    simp only [get_default_config_id, mbind, get_configs, remoteCall, hf]
    rw [List.find?_eq_none.mpr (fun x hx => by simpa using hall x hx)]
    rfl
  · intro s pre post c hf hcfg hpre hc
    simp only [get_default_scanner_id, mbind, get_scanners, remoteCall, hf]
    rw [hcfg]
    rw [find?_first (fun x => x.name == "OpenVAS Default") pre post c
      (fun x hx => by simpa using hpre x hx) (by simpa using hc)]
    rfl
  · intro s hf hall
    simp only [get_default_scanner_id, mbind, get_scanners, remoteCall, hf]
    rw [List.find?_eq_none.mpr (fun x hx => by simpa using hall x hx)]
    rfl

/-- C8 witness: resolution on the clean service, with a case-differing
config listed before the exact match. -/
theorem C8_witness :
    (get_default_config_id
      {baseState with configs := [⟨"cfg-x", "full and fast"⟩, ⟨"cfg-1", "Full and fast"⟩]}).1 =
      .ok "cfg-1" :=
  C8_name_resolution_exact.1
    {baseState with configs := [⟨"cfg-x", "full and fast"⟩, ⟨"cfg-1", "Full and fast"⟩]}
    [⟨"cfg-x", "full and fast"⟩] [] ⟨"cfg-1", "Full and fast"⟩ rfl rfl
    (by intro x hx; simp at hx; subst hx; decide) rfl

/-- C3: CVSS decomposition splits the severity vector on `"/"`, discards
the first (prefix) element, takes up to the next 8 elements in order,
and pads with `"N/A"` for each of the 8 positions not present; the empty
string gives all 8 `"N/A"`, and a vector with only 3 metric tokens after
the prefix gives 3 parsed tokens followed by 5 `"N/A"`. -/
theorem C3_cvss_decomposition (sv : String) :
    vector_parts sv = (pySplit sv '/').tail ∧
    rawMetrics sv =
      (vector_parts sv).take 8 ++
        List.replicate (8 - (vector_parts sv).length) "N/A" ∧
    rawMetrics "" = List.replicate 8 "N/A" ∧
    rawMetrics "CVSS:3.1/AV:N/AC:L/PR:N" =
      ["AV:N", "AC:L", "PR:N", "N/A", "N/A", "N/A", "N/A", "N/A"] := by
  refine ⟨?_, ?_, by decide, by decide⟩
  · by_cases h : sv = ""
    · subst h; rfl
    · simp [vector_parts, h]
  · rw [rawMetrics, List.take_append_eq_append_take, List.take_replicate,
      Nat.min_eq_left (Nat.sub_le _ _)]

lemma cveLoop_no_match (rs : List PyVal)
    (hall : ∀ x ∈ rs, ∃ t, pyGetD x "@type" PyVal.pyNone = .ok t ∧ t.eqStr "cve" = false) :
    cveLoop rs = .ok (.str "N/A") := by
  induction rs with
  | nil => rfl
  | cons r rest ih =>
    obtain ⟨t, ht, hne⟩ := hall r (by simp)
    rw [cveLoop, ht]
    simp only [hne, if_false, Bool.false_eq_true]
    exact ih (fun x hx => hall x (by simp [hx]))

/-- C5: the CVE value scans the reference list in order for the first
entry whose `@type` equals `"cve"` and takes its `@id`; it is `"N/A"`
when the list is empty or has no cve-typed entry, a single reference
object (not a list) is normalized to a one-element list and still
matched, and an `nvt` without the `refs`/`ref` field also yields
`"N/A"`. -/
theorem C5_cve_extraction :
    cveLoop [] = .ok (.str "N/A") ∧
    (∀ v : PyVal, v.isList = false → normalizeRefs v = [v]) ∧
    (∀ rs : List PyVal,
      (∀ x ∈ rs, ∃ t, pyGetD x "@type" PyVal.pyNone = .ok t ∧ t.eqStr "cve" = false) →
      cveLoop rs = .ok (.str "N/A")) ∧
    (∀ (pre post : List PyVal) (r : PyVal),
      (∀ x ∈ pre, ∃ t, pyGetD x "@type" PyVal.pyNone = .ok t ∧ t.eqStr "cve" = false) →
      (∃ t, pyGetD r "@type" PyVal.pyNone = .ok t ∧ t.eqStr "cve" = true) →
      cveLoop (pre ++ r :: post) = pyGetD r "@id" (.str "N/A")) ∧
    extract_cve (.dict []) = .ok (.str "N/A") ∧
    extract_cve (.dict [("refs", .dict [("ref", cveRef)])]) =
      .ok (.str "CVE-2023-0001") := by
  refine ⟨rfl, ?_, cveLoop_no_match, ?_, rfl, rfl⟩
  · intro v hv
    cases v <;> first | rfl | simp [PyVal.isList] at hv
  · intro pre post r hpre hr
    induction pre with
    | nil =>
      obtain ⟨t, ht, heq⟩ := hr
      rw [List.nil_append, cveLoop, ht]
      simp only [heq, if_true]
    | cons a as ih =>
      obtain ⟨t, ht, hne⟩ := hpre a (by simp)
      rw [List.cons_append, cveLoop, ht]
      simp only [hne, if_false, Bool.false_eq_true]
      exact ih (fun x hx => hpre x (by simp [hx]))

/-- C5 witness: the ordered-scan part applied to the two-entry reference
list with the cve entry first. -/
theorem C5_witness : cveLoop [cveRef, bidRef] = .ok (.str "CVE-2023-0001") := by
  have h := C5_cve_extraction.2.2.2.1 [] [bidRef] cveRef
    (by intro x hx; cases hx) ⟨.str "cve", rfl, rfl⟩
  exact h.trans rfl

lemma splitOnChar_head_shape (sep : Char) (m : List Char) :
    ∃ gs, splitOnChar sep m = m.takeWhile (fun c => c ≠ sep) :: gs := by
  induction m with
  | nil => exact ⟨[], rfl⟩
  | cons c rest ih =>
    by_cases hc : c = sep
    · refine ⟨splitOnChar sep rest, ?_⟩
      simp [splitOnChar, hc]
    · obtain ⟨gs, hgs⟩ := ih
      refine ⟨gs, ?_⟩
      simp only [splitOnChar, if_neg hc, hgs]
      simp [hc]

lemma contains_of_cons_ne (sep c : Char) (rest : List Char) (hc : ¬ c = sep)
    (h : (c :: rest).contains sep = true) : rest.contains sep = true := by
  simp only [List.contains_cons, Bool.or_eq_true, beq_iff_eq] at h
  rcases h with h1 | h2
  · exact absurd h1 (fun e => hc e.symm)
  · exact h2

lemma splitOnChar_cons_of_contains (sep : Char) (l : List Char)
    (h : l.contains sep = true) :
    splitOnChar sep l =
      l.takeWhile (fun c => c ≠ sep) ::
        splitOnChar sep ((l.dropWhile (fun c => c ≠ sep)).tail) := by
  induction l with
  | nil => simp at h
  | cons c rest ih =>
    by_cases hc : c = sep
    · subst hc
      simp [splitOnChar]
    · have hr := contains_of_cons_ne sep c rest hc h
      simp only [splitOnChar, if_neg hc]
      rw [ih hr]
      simp [hc]

lemma dropWhile_cons_of_contains (sep : Char) (l : List Char)
    (h : l.contains sep = true) :
    ∃ m, l.dropWhile (fun c => c ≠ sep) = sep :: m := by
  induction l with
  | nil => simp at h
  | cons c rest ih =>
    by_cases hc : c = sep
    · subst hc
      exact ⟨rest, by simp⟩
    · obtain ⟨m, hm⟩ := ih (contains_of_cons_ne sep c rest hc h)
      refine ⟨m, ?_⟩
      rw [List.dropWhile_cons, if_pos (by simpa using hc)]
      exact hm

lemma takeWhile_eq_self_of_no_sep (sep : Char) (m : List Char) (h : sep ∉ m) :
    m.takeWhile (fun c => c ≠ sep) = m := by
  rw [List.takeWhile_eq_self_iff]
  intro x hx
  simp only [ne_eq, decide_eq_true_eq]
  exact fun e => h (e ▸ hx)

lemma pySplit_getD_one (tok : String) (h : tok.toList.contains ':' = true) :
    (pySplit tok ':').getD 1 tok = betweenColonsSpec tok := by
  obtain ⟨gs, hgs⟩ :=
    splitOnChar_head_shape ':' ((tok.toList.dropWhile (fun c => c ≠ ':')).tail)
  rw [pySplit, splitOnChar_cons_of_contains ':' tok.toList h, hgs]
  rfl

/-- C4 counterexample: on the token `"A:B:C"` (which contains a colon),
the emitted value is `"B"`, not the entire substring `"B:C"` after the
first colon, refuting the claim for tokens with more than one colon. -/
theorem C4_counterexample_double_colon :
    "A:B:C".toList.contains ':' = true ∧
    metricValue "A:B:C" = "B" ∧
    afterFirstColonSpec "A:B:C" = "B:C" ∧
    metricValue "A:B:C" ≠ afterFirstColonSpec "A:B:C" := by decide

/-- C4 (amended): for each of the 8 metric positions, a token without a
colon is kept unchanged (covering the `"N/A"` padding and malformed
tokens); a token with a colon yields the segment strictly between the
first and the second colon — which coincides with the entire substring
after the first colon exactly when the token has at most one colon. -/
theorem C4_metric_value_between_colons (tok : String) :
    (tok.toList.contains ':' = false → metricValue tok = tok) ∧
    (tok.toList.contains ':' = true → metricValue tok = betweenColonsSpec tok) ∧
    (tok.toList.contains ':' = true → tok.toList.count ':' ≤ 1 →
      metricValue tok = afterFirstColonSpec tok) := by
  have h2 : tok.toList.contains ':' = true → metricValue tok = betweenColonsSpec tok := by
    intro h
    rw [metricValue, if_pos h]
    exact pySplit_getD_one tok h
  have h1 : tok.toList.contains ':' = false → metricValue tok = tok := by
    intro h
    have hneg : ¬ (tok.toList.contains ':' = true) := by rw [h]; simp
    rw [metricValue, if_neg hneg]
  refine ⟨h1, h2, fun h hcount => ?_⟩
  rw [h2 h]
  unfold betweenColonsSpec afterFirstColonSpec
  obtain ⟨m, hm⟩ := dropWhile_cons_of_contains ':' tok.toList h
  rw [hm]
  have hTW : (tok.toList.takeWhile (fun c => c ≠ ':')).count ':' = 0 := by
    refine List.count_eq_zero.mpr (fun hmem => ?_)
    have := List.mem_takeWhile_imp hmem
    simp at this
  have hsum : tok.toList.count ':' =
      (tok.toList.takeWhile (fun c => c ≠ ':')).count ':' +
        (tok.toList.dropWhile (fun c => c ≠ ':')).count ':' := by
    conv_lhs => rw [← List.takeWhile_append_dropWhile (fun c => c ≠ ':') tok.toList]
    rw [List.count_append]
  rw [hTW, Nat.zero_add, hm, List.count_cons_self] at hsum
  have hm0 : m.count ':' = 0 := by omega
  rw [List.tail_cons, takeWhile_eq_self_of_no_sep ':' m (List.count_eq_zero.mp hm0)]

/-- C4 witness: the amended statement applied to the well-formed token
`"AV:N"`, where both readings agree. -/
theorem C4_witness :
    metricValue "AV:N" = betweenColonsSpec "AV:N" ∧
    metricValue "AV:N" = afterFirstColonSpec "AV:N" :=
  ⟨(C4_metric_value_between_colons "AV:N").2.1 (by decide),
   (C4_metric_value_between_colons "AV:N").2.2 (by decide) (by decide)⟩

lemma trigger_scan_first_run (n h p : String) : trigger_scan n h p baseState =
    (.ok (.okMsg "Scan started" n h "id-ii"), state1 n h p) := rfl

lemma trigger_scan_second_run (n h p : String) : trigger_scan n h p (state1 n h p) =
    (.ok (.okMsg "Scan started" n h "id-iiiii"), state2 n h p) := by
  simp [trigger_scan, trigger_scan_body, catchGvm, mbind, mret, connect, authenticate,
        remoteCall, get_targets, delete_target_if_exists, delete_target, create_target,
        get_configs, get_scanners, get_default_config_id, get_default_scanner_id,
        create_task, start_task, disconnectState, state1, state2, List.find?]
  decide

/-- C1 (amended): two sequential `trigger_scan` calls with the same name
and hosts on the clean service leave exactly one Target carrying the
scan name — the old target (id `"id-"`) is deleted before a fresh one
(id `"id-iii"`) is created — but Tasks are duplicated: two Tasks with
the scan name exist afterwards, because the old Task is never deleted. -/
theorem C1_two_runs_duplicate_tasks (n h p : String) :
    (runTwice n h p baseState).targets.map (fun t => t.name) = [n] ∧
    (runTwice n h p baseState).targets.map (fun t => t.id) = ["id-iii"] ∧
    (trigger_scan n h p baseState).2.targets.map (fun t => t.id) = ["id-"] ∧
    (runTwice n h p baseState).tasks.map (fun t => t.name) = [n, n] ∧
    (runTwice n h p baseState).tasks.length = 2 := by
  have hrt : runTwice n h p baseState = state2 n h p := by
    rw [runTwice, trigger_scan_first_run]
    show (trigger_scan n h p (state1 n h p)).2 = state2 n h p
    rw [trigger_scan_second_run]
  refine ⟨?_, ?_, ?_, ?_, ?_⟩ <;>
    simp [hrt, trigger_scan_first_run, state1, state2]

/-- C1 counterexample: after two `trigger_scan "test1"` calls on the
clean service, two Tasks exist, not exactly one. -/
theorem C1_counterexample_two_tasks :
    (runTwice "test1" "10.0.0.1,10.0.0.2" defaultPortListId baseState).tasks.length = 2 ∧
    (runTwice "test1" "10.0.0.1,10.0.0.2" defaultPortListId baseState).tasks.length ≠ 1 := by
  decide
